import Mathlib

/-!
# Verification of `src/utils.py` (DeepLearning2022)

A shallow embedding of the utility module `src/utils.py` of the repository.
The module contains helpers for a machine-learning training workflow:
seeding random number generators (`fix_all_seeds`), per-experiment logger
setup (`create_logger`), appending per-epoch metrics to a CSV file
(`save_plotting_data`), and saving/loading model/optimizer checkpoints
(`save_checkpoint`, `load_checkpoint`, `load_best_model`, `save_model`).

Modelling choices:

* Python `float` values are abstracted by a type parameter `F`
  (the framework serialization round-trips them exactly);
  model state dicts and optimizer state dicts are abstracted by type
  parameters `MS` and `OS` (they are opaque framework objects the module
  never inspects).
* `nn.Module` and `Optimizer` arguments are mutable Python objects; they
  are modelled as addresses (`Nat`) into explicit heaps
  (`modelHeap`, `optimHeap`) mapping an address to the object's current
  state dict, so that in-place mutation and object identity are expressible.
* The filesystem is a pair of a set (list) of existing directories and an
  association list from paths to file contents.  A file's content is a list
  of chunks: a torch-serialized blob (`torch.save` truncates the file to a
  single blob) or one CSV text row (the `csv` module appends one row per
  `writerow`).  `torch.load` succeeds only on a file that is exactly one
  blob, matching the fact that it cannot unpickle text or mixed content.
* `os.path.join`, `os.path.dirname` and `os.makedirs` are modelled after
  their POSIX definitions (`posixpath.join` drops all earlier components
  when a later component is absolute; `os.makedirs` creates every missing
  ancestor directory, and raises `NotADirectoryError` from the underlying
  `mkdir` — creating nothing — when a component in the way exists as a
  regular file).
* Opening a file for reading/writing requires its parent directory to
  exist, otherwise the call raises; the raised error is propagated as an
  `Except.error` and the returned world reflects all effects performed
  before the raise, as in Python.
* Process-global in-process state used by the module (the `logging` root
  logger's handler list installed by `logging.basicConfig`, the seeds set
  by the `random`/`numpy`/`torch` modules and `os.environ`) is modelled by
  a `Globals` structure carried in the `World`.
* Every explicit file-handle open/close performed by the module is recorded
  in an event trace: the `with open(...)` blocks of `save_plotting_data`
  close their handle on block exit, while the `logging.FileHandler`
  installed by `logging.basicConfig` in `create_logger` opens the log file
  (append mode, `delay=False`) and keeps it open after the call returns.
  Handles managed entirely inside `torch.save`/`torch.load` are opened and
  closed within the library call and are not traced.
* The plotting helpers `display_image` and `display_dataset_sample` are
  pure visualization wrappers over tensor/matplotlib operations and are
  outside the scope of the claims formalised here.
-/

deriving instance DecidableEq for Except

namespace Utils

/-- A cell of a CSV row as written by `csv.writer.writerow`: the module
writes string literals in the header row and an `int` and a `float` in each
data row. -/
inductive Cell (F : Type) where
  | cstr (s : String)
  | cint (i : Int)
  | cfloat (x : F)
deriving DecidableEq

/-- A Python value stored under a key of the checkpoint dictionary built by
`save_checkpoint`. -/
inductive PyVal (F MS OS : Type) where
  | vInt (i : Int)
  | vFloat (x : F)
  | vModelState (ms : MS)
  | vOptimState (od : OS)
deriving DecidableEq

/-- An object serialized with `torch.save` by this module: either a bare
model state dict (`save_model`) or the checkpoint dictionary
(`save_checkpoint`). -/
inductive PyObj (F MS OS : Type) where
  | pyModelState (ms : MS)
  | pyCkptDict (entries : List (String × PyVal F MS OS))
deriving DecidableEq

/-- One chunk of a file's content. -/
inductive Chunk (F MS OS : Type) where
  | csvRow (cells : List (Cell F))
  | blob (obj : PyObj F MS OS)
deriving DecidableEq

/-- A handler attached to the `logging` root logger. -/
inductive Handler where
  | fileHandler (path : String)
  | streamHandler
deriving DecidableEq

/-- A file-handle event performed by the module's own code. -/
inductive HEvent where
  | hopen (path : String) (mode : String)
  | hclose (path : String)
deriving DecidableEq

/-- Errors raised by the underlying libraries (never caught by the module). -/
inductive PyErr where
  | fileNotFoundError (path : String)
  | parentDirMissing (dir : String)
  | notADirectoryError (dir : String)
  | unpicklingError (path : String)
  | keyError (key : String)
  | typeError
  | badRef (addr : Nat)
deriving DecidableEq

/-- Python `s.startswith('/')`. -/
def startsWithSlash (s : String) : Bool := s.data.head? == some '/'

/-- Python `s.endswith('/')`. -/
def endsWithSlash (s : String) : Bool := s.data.getLast? == some '/'

/-- Model of `posixpath.join` for two components: if the second component is
absolute it is returned alone; if the first is empty or ends with the
separator, plain concatenation; otherwise a separator is inserted. -/
def ospathJoin (a b : String) : String :=
  if startsWithSlash b then b
  else if a == "" || endsWithSlash a then a ++ b
  else a ++ "/" ++ b

/-- The prefix of a character list up to and including its last `'/'`
(empty when there is no `'/'`): the `head` part of `posixpath.split`. -/
def headPart : List Char → List Char
  | [] => []
  | c :: rest =>
    if '/' ∈ rest then c :: headPart rest
    else if c = '/' then [c] else []

/-- Strip trailing `'/'` characters. -/
def rstripSlash (l : List Char) : List Char :=
  (l.reverse.dropWhile (· == '/')).reverse

/-- Model of `posixpath.dirname`: everything up to the last separator, with trailing
separators stripped unless the result consists only of separators. -/
def dirname (p : String) : String :=
  let head := headPart p.data
  if head.isEmpty || head.all (· == '/') then String.mk head
  else String.mk (rstripSlash head)

/-- Insert-or-replace in an association list (used for writing a file at a
path and for mutating a heap cell). -/
def setAssoc {κ α : Type} [DecidableEq κ] : List (κ × α) → κ → α → List (κ × α)
  | [], k, a => [(k, a)]
  | (q, b) :: rest, k, a =>
    if q = k then (k, a) :: rest else (q, b) :: setAssoc rest k a

/-- The filesystem: the set of existing directories and the existing files
with their contents. -/
structure FS (F MS OS : Type) where
  dirs : List String
  files : List (String × List (Chunk F MS OS))
deriving DecidableEq

variable {F MS OS : Type}

/-- Python `os.path.isfile`. -/
def FS.isfile (fs : FS F MS OS) (p : String) : Bool :=
  (fs.files.lookup p).isSome

/-- Directory existence. -/
def FS.dirContains (fs : FS F MS OS) (p : String) : Bool :=
  fs.dirs.contains p

/-- Python `os.path.exists`: true for an existing directory or an existing file. -/
def FS.pathExists (fs : FS F MS OS) (p : String) : Bool :=
  fs.dirContains p || fs.isfile p

/-- Whether a file at path `p` can be opened for writing/appending: its
parent directory must exist (an empty dirname means the working
directory). -/
def FS.dirOk (fs : FS F MS OS) (p : String) : Bool :=
  dirname p == "" || fs.dirContains (dirname p)

/-- Create or overwrite the file at `p` with content `d`. -/
def FS.setFile (fs : FS F MS OS) (p : String) (d : List (Chunk F MS OS)) :
    FS F MS OS :=
  { fs with files := setAssoc fs.files p d }

/-- Model of `os.makedirs`, fuelled (the fuel bounds the ancestor chain;
`dirname` shortens the path at every step on the paths the module builds).
As in `os.makedirs`, the missing head is created recursively first, then
`os.mkdir` is attempted on the path itself; `mkdir` requires the parent to
be an existing directory — when the parent exists as a regular file it
raises `NotADirectoryError` and creates nothing. -/
def makedirsAux : Nat → FS F MS OS → String → Except PyErr (FS F MS OS)
  | 0, fs, _ => .ok fs
  | n + 1, fs, p =>
    let d := dirname p
    match (if d == "" || fs.pathExists d then Except.ok fs
           else makedirsAux n fs d) with
    | .error e => .error e
    | .ok fs1 =>
      if d == "" || fs1.dirContains d then
        .ok { fs1 with dirs := p :: fs1.dirs }
      else .error (.notADirectoryError d)

/-- Python `os.makedirs p`: create `p` and every missing ancestor
directory, raising when a component in the way exists as a regular
file. -/
def FS.makedirs (fs : FS F MS OS) (p : String) : Except PyErr (FS F MS OS) :=
  makedirsAux (p.length + 1) fs p

/-- In-process global state shared across calls (outside the filesystem):
the `logging` root logger configuration, the seeds of the process RNGs,
`os.environ['PYTHONHASHSEED']`, and CUDA availability. -/
structure Globals where
  logHandlers : List Handler
  rootLevelInfo : Bool
  randomSeed : Option Int
  npRandomSeed : Option Int
  envPyHashSeed : Option String
  torchSeed : Option Int
  cudaSeed : Option Int
  cudaAvailable : Bool
deriving DecidableEq

/-- The whole state a call can read or write: the filesystem, the heaps
holding the state of the model/optimizer objects passed as arguments, the
process-global state, and the trace of file-handle events. -/
structure World (F MS OS : Type) where
  fs : FS F MS OS
  modelHeap : List (Nat × MS)
  optimHeap : List (Nat × OS)
  g : Globals
  trace : List HEvent
deriving DecidableEq

/-- Read a heap cell (the state dict of the object at `a`). -/
def getAddr {α : Type} (h : List (Nat × α)) (a : Nat) : Option α :=
  h.lookup a

/- ### Paths used by the module (mirroring the `os.path.join` expressions
in the source, line for line) -/

/-- The path `os.path.join("out", experiment_id)`. -/
def experimentDir (eid : String) : String := ospathJoin "out" eid

/-- The path `os.path.join(experiment_dir, "logs")` in `create_logger`. -/
def logDir (eid : String) : String := ospathJoin (experimentDir eid) "logs"

/-- The path `os.path.join(log_dir, f"{time_str}.log")` in `create_logger`. -/
def logFilePath (eid ts : String) : String :=
  ospathJoin (logDir eid) (ts ++ ".log")

/-- The path `os.path.join("out", experiment_id, f"{metric}.csv")` in
`save_plotting_data`. -/
def plottingPath (eid metric : String) : String :=
  ospathJoin (experimentDir eid) (metric ++ ".csv")

/-- The path `os.path.join(experiment_dir, filename)` in `save_checkpoint` and
`save_model`. -/
def savePath (eid filename : String) : String :=
  ospathJoin (experimentDir eid) filename

/-- The path `os.path.join("out", experiment_id, "checkpoint.pth.tar")` in
`load_checkpoint`. -/
def checkpointLoadPath (eid : String) : String :=
  ospathJoin (experimentDir eid) "checkpoint.pth.tar"

/-- The path `os.path.join("out", experiment_id, "best_model.pth.tar")` in
`load_best_model`. -/
def bestModelPath (eid : String) : String :=
  ospathJoin (experimentDir eid) "best_model.pth.tar"

/- ### Library primitives -/

/-- Model of `torch.save(obj, p)`: truncates the file at `p` to a single serialized
blob; raises when the parent directory does not exist. -/
def torchSave (obj : PyObj F MS OS) (p : String) (fs : FS F MS OS) :
    Except PyErr (FS F MS OS) :=
  if fs.dirOk p then .ok (fs.setFile p [Chunk.blob obj])
  else .error (.parentDirMissing (dirname p))

/-- Model of `torch.load(p)`: raises `FileNotFoundError` when the file is missing
and an unpickling error when the content is not a single serialized
blob. -/
def torchLoad (p : String) (fs : FS F MS OS) : Except PyErr (PyObj F MS OS) :=
  match fs.files.lookup p with
  | none => .error (.fileNotFoundError p)
  | some [Chunk.blob obj] => .ok obj
  | some _ => .error (.unpicklingError p)

/- ### The module's functions -/

/-- Source `fix_all_seeds(seed)` on the global state: seeds `random`, `numpy`,
`os.environ['PYTHONHASHSEED']`, `torch`, and (when CUDA is available) all
CUDA devices. -/
def fix_all_seeds_g (seed : Int) (g : Globals) : Globals :=
  { g with
    randomSeed := some seed
    npRandomSeed := some seed
    envPyHashSeed := some (toString seed)
    torchSeed := some seed
    cudaSeed := if g.cudaAvailable then some seed else g.cudaSeed }

/-- Source `fix_all_seeds(seed)`. -/
def fix_all_seeds (seed : Int) (w : World F MS OS) :
    Except PyErr Unit × World F MS OS :=
  (.ok (), { w with g := fix_all_seeds_g seed w.g })

/-- Model of `logging.basicConfig(filename=fn, ...)`: a no-op when the root logger
already has handlers; otherwise installs a `FileHandler` on `fn`, which at
once opens `fn` in append mode (creating it when missing) and keeps the
handle open. -/
def basicConfigFile (fn : String) (fs : FS F MS OS) (g : Globals) :
    Except PyErr Unit × FS F MS OS × Globals × List HEvent :=
  if g.logHandlers.isEmpty then
    if fs.dirOk fn then
      let fs1 := if fs.isfile fn then fs else fs.setFile fn []
      (.ok (), fs1, { g with logHandlers := [Handler.fileHandler fn] },
        [HEvent.hopen fn "a"])
    else (.error (.fileNotFoundError fn), fs, g, [])
  else (.ok (), fs, g, [])

/-- The tail of `create_logger`: `logger.setLevel(logging.INFO)`, then a
`StreamHandler` is added only when the root logger has exactly one
handler. -/
def loggerSetup (g : Globals) : Globals :=
  let g1 := { g with rootLevelInfo := true }
  if g1.logHandlers.length == 1 then
    { g1 with logHandlers := g1.logHandlers ++ [Handler.streamHandler] }
  else g1

/-- Source `create_logger(experiment_id)`; `ts` is the value of
`time.strftime('%Y-%m-%d-%H-%M')` observed during the call. -/
def create_logger (eid ts : String) (w : World F MS OS) :
    Except PyErr Unit × World F MS OS :=
  match (if w.fs.pathExists (logDir eid) then Except.ok w.fs
         else w.fs.makedirs (logDir eid)) with
  | .error e => (.error e, w)
  | .ok fs0 =>
    match basicConfigFile (logFilePath eid ts) fs0 w.g with
    | (.error e, fs1, g1, ev) =>
      (.error e, { w with fs := fs1, g := g1, trace := w.trace ++ ev })
    | (.ok _, fs1, g1, ev) =>
      (.ok (), { w with fs := fs1, g := loggerSetup g1, trace := w.trace ++ ev })

/-- The `with open(fn, 'a', newline='') ...  writer.writerow([epoch,
metric_val])` block of `save_plotting_data`: appends one data row, creating
the file when missing; the handle is closed on block exit. -/
def appendRowCore (fn : String) (epoch : Int) (v : F) (fs : FS F MS OS) :
    Except PyErr Unit × FS F MS OS × List HEvent :=
  if fs.dirOk fn then
    let old := (fs.files.lookup fn).getD []
    (.ok (),
      fs.setFile fn (old ++ [Chunk.csvRow [Cell.cint epoch, Cell.cfloat v]]),
      [HEvent.hopen fn "a", HEvent.hclose fn])
  else (.error (.fileNotFoundError fn), fs, [])

/-- Source `save_plotting_data(experiment_id, metric, epoch, metric_val)` on the
filesystem, also returning the file-handle events of the call. -/
def save_plotting_data_core (eid metric : String) (epoch : Int) (v : F)
    (fs : FS F MS OS) : Except PyErr Unit × FS F MS OS × List HEvent :=
  let fn := plottingPath eid metric
  if fs.isfile fn then appendRowCore fn epoch v fs
  else
    if fs.dirOk fn then
      let fs1 := fs.setFile fn [Chunk.csvRow [Cell.cstr "epoch", Cell.cstr metric]]
      let r := appendRowCore fn epoch v fs1
      (r.1, r.2.1, [HEvent.hopen fn "w", HEvent.hclose fn] ++ r.2.2)
    else (.error (.fileNotFoundError fn), fs, [])

/-- Source `save_plotting_data(experiment_id, metric, epoch, metric_val)`. -/
def save_plotting_data (eid metric : String) (epoch : Int) (v : F)
    (w : World F MS OS) : Except PyErr Unit × World F MS OS :=
  let r := save_plotting_data_core eid metric epoch v w.fs
  (r.1, { w with fs := r.2.1, trace := w.trace ++ r.2.2 })

/-- Source `save_checkpoint(experiment_id, next_epoch, best_acc, model, optimizer,
filename)` on the heaps and the filesystem: builds the checkpoint
dictionary from the current state dicts and `torch.save`s it. -/
def save_checkpoint_core (eid : String) (next_epoch : Int) (best_acc : F)
    (model optimizer : Nat) (filename : String)
    (mh : List (Nat × MS)) (oh : List (Nat × OS)) (fs : FS F MS OS) :
    Except PyErr Unit × FS F MS OS :=
  match getAddr mh model with
  | none => (.error (.badRef model), fs)
  | some ms =>
    match getAddr oh optimizer with
    | none => (.error (.badRef optimizer), fs)
    | some od =>
      let d : List (String × PyVal F MS OS) :=
        [("next_epoch", PyVal.vInt next_epoch),
         ("best_acc", PyVal.vFloat best_acc),
         ("model_state_dict", PyVal.vModelState ms),
         ("optimizer_state_dict", PyVal.vOptimState od)]
      match torchSave (PyObj.pyCkptDict d) (savePath eid filename) fs with
      | .ok fs1 => (.ok (), fs1)
      | .error e => (.error e, fs)

/-- Source `save_checkpoint(...)`; the source's default for `filename` is
`"checkpoint.pth.tar"`. -/
def save_checkpoint (eid : String) (next_epoch : Int) (best_acc : F)
    (model optimizer : Nat) (filename : String) (w : World F MS OS) :
    Except PyErr Unit × World F MS OS :=
  let r := save_checkpoint_core eid next_epoch best_acc model optimizer
      filename w.modelHeap w.optimHeap w.fs
  (r.1, { w with fs := r.2 })

/-- Source `load_checkpoint(experiment_id, model, optimizer)` on the heaps:
`torch.load`s the checkpoint, restores the model and optimizer state dicts
in place, and returns the model, the optimizer, `next_epoch` and
`best_acc`. -/
def load_checkpoint_core (eid : String) (model optimizer : Nat)
    (mh : List (Nat × MS)) (oh : List (Nat × OS)) (fs : FS F MS OS) :
    Except PyErr (Nat × Nat × PyVal F MS OS × PyVal F MS OS)
      × List (Nat × MS) × List (Nat × OS) :=
  match torchLoad (checkpointLoadPath eid) fs with
  | .error e => (.error e, mh, oh)
  | .ok (PyObj.pyModelState _) => (.error .typeError, mh, oh)
  | .ok (PyObj.pyCkptDict entries) =>
    match entries.lookup "model_state_dict" with
    | none => (.error (.keyError "model_state_dict"), mh, oh)
    | some (PyVal.vModelState ms) =>
      let mh1 := setAssoc mh model ms
      (match entries.lookup "optimizer_state_dict" with
       | none => (.error (.keyError "optimizer_state_dict"), mh1, oh)
       | some (PyVal.vOptimState od) =>
         let oh1 := setAssoc oh optimizer od
         (match entries.lookup "next_epoch" with
          | none => (.error (.keyError "next_epoch"), mh1, oh1)
          | some nx =>
            match entries.lookup "best_acc" with
            | none => (.error (.keyError "best_acc"), mh1, oh1)
            | some ba => (.ok (model, optimizer, nx, ba), mh1, oh1))
       | some _ => (.error .typeError, mh1, oh))
    | some _ => (.error .typeError, mh, oh)

/-- Source `load_checkpoint(experiment_id, model, optimizer)`. -/
def load_checkpoint (eid : String) (model optimizer : Nat)
    (w : World F MS OS) :
    Except PyErr (Nat × Nat × PyVal F MS OS × PyVal F MS OS)
      × World F MS OS :=
  let r := load_checkpoint_core eid model optimizer w.modelHeap w.optimHeap w.fs
  (r.1, { w with modelHeap := r.2.1, optimHeap := r.2.2 })

/-- Source `load_best_model(experiment_id, model)` on the heap: `torch.load`s the
saved state dict, restores it into the model in place, and returns the
model. -/
def load_best_model_core (eid : String) (model : Nat)
    (mh : List (Nat × MS)) (fs : FS F MS OS) :
    Except PyErr Nat × List (Nat × MS) :=
  match torchLoad (bestModelPath eid) fs with
  | .error e => (.error e, mh)
  | .ok (PyObj.pyModelState ms) => (.ok model, setAssoc mh model ms)
  | .ok _ => (.error .typeError, mh)

/-- Source `load_best_model(experiment_id, model)`. -/
def load_best_model (eid : String) (model : Nat) (w : World F MS OS) :
    Except PyErr Nat × World F MS OS :=
  let r := load_best_model_core eid model w.modelHeap w.fs
  (r.1, { w with modelHeap := r.2 })

/-- Source `save_model(model, experiment_id, filename)` on the heap and the
filesystem: `torch.save`s the model's current state dict. -/
def save_model_core (model : Nat) (eid filename : String)
    (mh : List (Nat × MS)) (fs : FS F MS OS) :
    Except PyErr Unit × FS F MS OS :=
  match getAddr mh model with
  | none => (.error (.badRef model), fs)
  | some ms =>
    match torchSave (PyObj.pyModelState ms) (savePath eid filename) fs with
    | .ok fs1 => (.ok (), fs1)
    | .error e => (.error e, fs)

/-- Source `save_model(model, experiment_id, filename)`. -/
def save_model (model : Nat) (eid filename : String) (w : World F MS OS) :
    Except PyErr Unit × World F MS OS :=
  let r := save_model_core model eid filename w.modelHeap w.fs
  (r.1, { w with fs := r.2 })

/- ### Derived observations -/

/-- The rows obtained by reading a file back through `csv.reader` (the
serialized blobs are not CSV rows). -/
def csvRows (file : List (Chunk F MS OS)) : List (List (Cell F)) :=
  file.filterMap fun c =>
    match c with
    | Chunk.csvRow r => some r
    | _ => none

/-- The paths opened during a trace. -/
def openedPaths (t : List HEvent) : List String :=
  t.filterMap fun e =>
    match e with
    | HEvent.hopen p _ => some p
    | _ => none

/-- The paths closed during a trace. -/
def closedPaths (t : List HEvent) : List String :=
  t.filterMap fun e =>
    match e with
    | HEvent.hclose p => some p
    | _ => none

/-- Every handle opened in the trace is also closed in it. -/
def allClosedB (t : List HEvent) : Bool :=
  (openedPaths t).all fun p => (openedPaths t).count p = (closedPaths t).count p

/-- Applying a sequence of `save_plotting_data` calls (the same experiment
and metric) to a world. -/
def runPlots (eid metric : String) (calls : List (Int × F))
    (w : World F MS OS) : World F MS OS :=
  calls.foldl (fun acc c => (save_plotting_data eid metric c.1 c.2 acc).2) w

/- ### Concrete states used to evaluate the embedding -/

/-- A fresh process: no logging handlers installed, no seeds set, no CUDA. -/
def g0 : Globals :=
  { logHandlers := [], rootLevelInfo := false, randomSeed := none,
    npRandomSeed := none, envPyHashSeed := none, torchSeed := none,
    cudaSeed := none, cudaAvailable := false }

/-- A small world: directories `out` and `out/e` exist, one model object at
address 0 (state dict `5`) and one optimizer object at address 0 (state
dict `7`). -/
def demoW : World Int Int Int :=
  { fs := { dirs := ["out", "out/e"], files := [] },
    modelHeap := [(0, 5)], optimHeap := [(0, 7)], g := g0, trace := [] }

/-- World `demoW` with different process-global state (a logger already
configured for another experiment and seeds already set). -/
def demoW2 : World Int Int Int :=
  { demoW with
    g := { logHandlers := [Handler.fileHandler "out/x/logs/t.log",
             Handler.streamHandler],
           rootLevelInfo := true, randomSeed := some 1, npRandomSeed := some 1,
           envPyHashSeed := some "1", torchSeed := some 1, cudaSeed := none,
           cudaAvailable := true } }

/-- A world in which the file named by the claimed literal layout
`out/<experiment_id>/checkpoint.pth.tar` for `experiment_id = "/e"`
(that is, `out//e/checkpoint.pth.tar`) exists together with its
directory. -/
def layoutW : World Int Int Int :=
  { fs := { dirs := ["out", "out//e"],
            files := [("out//e/checkpoint.pth.tar",
              [Chunk.blob (PyObj.pyCkptDict
                [("next_epoch", PyVal.vInt 1), ("best_acc", PyVal.vFloat 2),
                 ("model_state_dict", PyVal.vModelState 3),
                 ("optimizer_state_dict", PyVal.vOptimState 4)])])] },
    modelHeap := [(0, 0)], optimHeap := [(0, 0)], g := g0, trace := [] }

/-- A world in which the log directories and log files of experiments `e1`
and `e2` all exist already, so that `create_logger` leaves the filesystem
unchanged. -/
def logW : World Int Int Int :=
  { fs := { dirs := ["out", "out/e1", "out/e1/logs", "out/e2", "out/e2/logs"],
            files := [("out/e1/logs/t.log", []), ("out/e2/logs/t.log", [])] },
    modelHeap := [], optimHeap := [], g := g0, trace := [] }

/-- A world with an entirely empty filesystem. -/
def emptyW : World Int Int Int :=
  { fs := { dirs := [], files := [] },
    modelHeap := [(0, 5)], optimHeap := [(0, 7)], g := g0, trace := [] }

/-- World `demoW` after a concrete `save_checkpoint` call. -/
def loadedW : World Int Int Int :=
  (save_checkpoint "e" 3 9 0 0 "checkpoint.pth.tar" demoW).2

/-- A world holding a saved best-model state dict (`11`) for experiment
`e`. -/
def bestW : World Int Int Int :=
  { demoW with
    fs := { dirs := ["out", "out/e"],
            files := [("out/e/best_model.pth.tar",
              [Chunk.blob (PyObj.pyModelState 11)])] } }

/- ### Helper lemmas -/

theorem lookup_setAssoc_self {κ α : Type} [DecidableEq κ] [BEq κ] [LawfulBEq κ]
    (l : List (κ × α)) (k : κ) (a : α) :
    (setAssoc l k a).lookup k = some a := by
  induction l with
  | nil => simp [setAssoc, List.lookup]
  | cons hd tl ih =>
    obtain ⟨q, b⟩ := hd
    by_cases h : q = k
    · subst h
      simp [setAssoc, List.lookup]
    · have hk : (k == q) = false := by
        exact beq_eq_false_iff_ne.mpr (Ne.symm h)
      simp [setAssoc, h, List.lookup, hk, ih]

theorem string_data_append (a b : String) : (a ++ b).data = a.data ++ b.data := rfl

theorem string_empty_data : ("" : String).data = [] := rfl

theorem string_mk_data (s : String) : String.mk s.data = s := rfl

theorem string_eq_of_data (a b : String) (h : a.data = b.data) : a = b := by
  cases a
  cases b
  exact congrArg String.mk h

theorem string_data_eq_of_eq (a b : String) (h : a = b) : a.data = b.data := by
  rw [h]

theorem strAppend_assoc (a b c : String) : a ++ b ++ c = a ++ (b ++ c) := by
  apply string_eq_of_data
  simp [string_data_append]

theorem string_ne_empty_of_data (a : String) (h : a.data ≠ []) : a ≠ "" := by
  intro he
  apply h
  rw [string_data_eq_of_eq _ _ he]

theorem sep_append_ne_empty (a b : String) : a ++ "/" ++ b ≠ "" := by
  apply string_ne_empty_of_data
  rw [string_data_append, string_data_append]
  intro h
  have := congrArg List.length h
  simp at this

theorem beq_empty_false_of_ne (a : String) (h : a ≠ "") : (a == "") = false :=
  beq_eq_false_iff_ne.mpr h

theorem ospathJoin_eq_of (a b : String) (hb : startsWithSlash b = false)
    (ha : a ≠ "") (ha2 : endsWithSlash a = false) :
    ospathJoin a b = a ++ "/" ++ b := by
  simp [ospathJoin, hb, ha2, beq_empty_false_of_ne a ha]

theorem startsWithSlash_append (a b : String)
    (ha : startsWithSlash a = false) (hb : startsWithSlash b = false) :
    startsWithSlash (a ++ b) = false := by
  unfold startsWithSlash at *
  rw [string_data_append]
  cases h : a.data with
  | nil => simpa [h] using hb
  | cons c cs =>
    rw [h] at ha
    simpa using ha

theorem endsWithSlash_append (a b : String) (hb : b ≠ "") :
    endsWithSlash (a ++ b) = endsWithSlash b := by
  unfold endsWithSlash
  rw [string_data_append, List.getLast?_append]
  have hbd : b.data ≠ [] := by
    intro h
    exact hb (string_eq_of_data b "" (by rw [h, string_empty_data]))
  cases h : b.data.getLast? with
  | none => exact absurd (List.getLast?_eq_none_iff.mp h) hbd
  | some c => rfl

theorem endsWithSlash_sep_append (a b : String) (hb : endsWithSlash b = false)
    (hbne : b ≠ "") : endsWithSlash (a ++ "/" ++ b) = false := by
  rw [strAppend_assoc, endsWithSlash_append a ("/" ++ b)
      (by apply string_ne_empty_of_data; simp [string_data_append]),
    endsWithSlash_append "/" b hbne]
  exact hb

theorem append_ne_empty_left (a b : String) (ha : a ≠ "") : a ++ b ≠ "" := by
  intro h
  apply ha
  have hd := string_data_eq_of_eq _ _ h
  rw [string_data_append, string_empty_data] at hd
  exact string_eq_of_data a "" (by rw [(List.append_eq_nil.mp hd).1, string_empty_data])

theorem append_ne_empty_right (a b : String) (hb : b ≠ "") : a ++ b ≠ "" := by
  intro h
  apply hb
  have hd := string_data_eq_of_eq _ _ h
  rw [string_data_append, string_empty_data] at hd
  exact string_eq_of_data b "" (by rw [(List.append_eq_nil.mp hd).2, string_empty_data])

theorem out_append_ne_empty (eid : String) : "out/" ++ eid ≠ "" :=
  append_ne_empty_left "out/" eid (by decide)

theorem endsWithSlash_out_append (eid : String) (h1 : eid ≠ "")
    (h3 : endsWithSlash eid = false) : endsWithSlash ("out/" ++ eid) = false := by
  rw [endsWithSlash_append "out/" eid h1]
  exact h3

theorem experimentDir_eq (eid : String) (h2 : startsWithSlash eid = false) :
    experimentDir eid = "out/" ++ eid := by
  unfold experimentDir
  rw [ospathJoin_eq_of "out" eid h2 (by decide) (by decide)]
  rfl

theorem savePath_eq (eid filename : String) (h1 : eid ≠ "")
    (h2 : startsWithSlash eid = false) (h3 : endsWithSlash eid = false)
    (h5 : startsWithSlash filename = false) :
    savePath eid filename = "out/" ++ eid ++ "/" ++ filename := by
  unfold savePath
  rw [experimentDir_eq eid h2,
    ospathJoin_eq_of _ _ h5 (out_append_ne_empty eid) (endsWithSlash_out_append eid h1 h3)]

theorem checkpointLoadPath_eq (eid : String) (h1 : eid ≠ "")
    (h2 : startsWithSlash eid = false) (h3 : endsWithSlash eid = false) :
    checkpointLoadPath eid = "out/" ++ eid ++ "/checkpoint.pth.tar" := by
  unfold checkpointLoadPath
  rw [experimentDir_eq eid h2,
    ospathJoin_eq_of _ _ (by decide) (out_append_ne_empty eid)
      (endsWithSlash_out_append eid h1 h3),
    strAppend_assoc ("out/" ++ eid) "/" "checkpoint.pth.tar"]
  rfl

theorem bestModelPath_eq (eid : String) (h1 : eid ≠ "")
    (h2 : startsWithSlash eid = false) (h3 : endsWithSlash eid = false) :
    bestModelPath eid = "out/" ++ eid ++ "/best_model.pth.tar" := by
  unfold bestModelPath
  rw [experimentDir_eq eid h2,
    ospathJoin_eq_of _ _ (by decide) (out_append_ne_empty eid)
      (endsWithSlash_out_append eid h1 h3),
    strAppend_assoc ("out/" ++ eid) "/" "best_model.pth.tar"]
  rfl

theorem plottingPath_eq (eid metric : String) (h1 : eid ≠ "")
    (h2 : startsWithSlash eid = false) (h3 : endsWithSlash eid = false)
    (h4 : startsWithSlash metric = false) :
    plottingPath eid metric = "out/" ++ eid ++ "/" ++ metric ++ ".csv" := by
  unfold plottingPath
  rw [experimentDir_eq eid h2,
    ospathJoin_eq_of _ _ (startsWithSlash_append metric ".csv" h4 (by decide))
      (out_append_ne_empty eid) (endsWithSlash_out_append eid h1 h3),
    ← strAppend_assoc ("out/" ++ eid ++ "/") metric ".csv"]

theorem logDir_eq (eid : String) (h1 : eid ≠ "")
    (h2 : startsWithSlash eid = false) (h3 : endsWithSlash eid = false) :
    logDir eid = "out/" ++ eid ++ "/logs" := by
  unfold logDir
  rw [experimentDir_eq eid h2,
    ospathJoin_eq_of _ _ (by decide) (out_append_ne_empty eid)
      (endsWithSlash_out_append eid h1 h3),
    strAppend_assoc ("out/" ++ eid) "/" "logs"]
  rfl

theorem logFilePath_eq (eid ts : String) (h1 : eid ≠ "")
    (h2 : startsWithSlash eid = false) (h3 : endsWithSlash eid = false)
    (h6 : startsWithSlash ts = false) :
    logFilePath eid ts = "out/" ++ eid ++ "/logs/" ++ ts ++ ".log" := by
  unfold logFilePath
  rw [logDir_eq eid h1 h2 h3,
    ospathJoin_eq_of _ _ (startsWithSlash_append ts ".log" h6 (by decide))
      (append_ne_empty_right ("out/" ++ eid) "/logs" (by decide))
      (by rw [endsWithSlash_append ("out/" ++ eid) "/logs" (by decide)]; decide),
    strAppend_assoc ("out/" ++ eid) "/logs" "/"]
  have e1 : ("/logs" ++ "/" : String) = "/logs/" := rfl
  rw [e1, ← strAppend_assoc ("out/" ++ eid ++ "/logs/") ts ".log"]

theorem headPart_append_slash (dd fd : List Char) (hf : '/' ∉ fd) :
    headPart (dd ++ '/' :: fd) = dd ++ ['/'] := by
  induction dd with
  | nil => simp [headPart, hf]
  | cons c cs ih =>
    have hmem : '/' ∈ cs ++ '/' :: fd := by simp
    simp [headPart, hmem, ih]

theorem rstripSlash_concat (dd : List Char) (h : dd.getLast? ≠ some '/') :
    rstripSlash (dd ++ ['/']) = dd := by
  have hdrop : dd.reverse.dropWhile (· == '/') = dd.reverse := by
    cases hr : dd.reverse with
    | nil => rfl
    | cons c cs =>
      have hc : (c == '/') = false := by
        apply beq_eq_false_iff_ne.mpr
        intro he
        apply h
        have hhd : dd.reverse.head? = some '/' := by rw [hr, he]; rfl
        rw [List.head?_reverse] at hhd
        exact hhd
      simp [List.dropWhile_cons, hc]
  unfold rstripSlash
  rw [List.reverse_append]
  have h1 : (['/'] : List Char).reverse ++ dd.reverse = '/' :: dd.reverse := rfl
  rw [h1, List.dropWhile_cons]
  simp only [beq_self_eq_true, if_true, hdrop, List.reverse_reverse]

theorem dirname_sep_append (d f : String) (hd : endsWithSlash d = false)
    (hdne : d ≠ "") (hf : '/' ∉ f.data) :
    dirname (d ++ "/" ++ f) = d := by
  have hdata : (d ++ "/" ++ f).data = d.data ++ '/' :: f.data := by
    simp [string_data_append]
  have hdd : d.data ≠ [] := by
    intro h
    exact hdne (string_eq_of_data d "" (by simpa using h))
  have hlast : d.data.getLast? ≠ some '/' := by
    intro h
    unfold endsWithSlash at hd
    rw [h] at hd
    simp at hd
  unfold dirname
  rw [hdata, headPart_append_slash d.data f.data hf]
  have hne : (d.data ++ ['/']).isEmpty = false := by
    simp [List.isEmpty_iff]
  have hnall : (d.data ++ ['/']).all (· == '/') = false := by
    rw [List.all_eq_false]
    refine ⟨d.data.getLast hdd, ?_, ?_⟩
    · exact List.mem_append_left _ (List.getLast_mem hdd)
    · simp only [beq_iff_eq]
      intro h
      exact hlast (by rw [List.getLast?_eq_getLast d.data hdd, h])
  simp only [hne, hnall, Bool.or_self, if_false]
  rw [rstripSlash_concat d.data hlast]
  exact string_mk_data d

theorem string_length_ne_zero (p : String) (h : p ≠ "") : p.length ≠ 0 := by
  intro hl
  apply h
  apply string_eq_of_data
  rw [string_empty_data]
  exact List.length_eq_zero.mp hl

@[simp] theorem setFile_dirs (fs : FS F MS OS) (p : String)
    (d : List (Chunk F MS OS)) : (fs.setFile p d).dirs = fs.dirs := rfl

@[simp] theorem dirOk_setFile (fs : FS F MS OS) (q p : String)
    (d : List (Chunk F MS OS)) : (fs.setFile q d).dirOk p = fs.dirOk p := rfl

@[simp] theorem lookup_setFile_self (fs : FS F MS OS) (p : String)
    (d : List (Chunk F MS OS)) : (fs.setFile p d).files.lookup p = some d :=
  lookup_setAssoc_self fs.files p d

@[simp] theorem isfile_setFile_self (fs : FS F MS OS) (p : String)
    (d : List (Chunk F MS OS)) : (fs.setFile p d).isfile p = true := by
  unfold FS.isfile
  rw [lookup_setFile_self]
  rfl

theorem string_length_append (a b : String) :
    (a ++ b).length = a.length + b.length := by
  show (a.data ++ b.data).length = a.data.length + b.data.length
  exact List.length_append _ _

theorem dirContains_cons_self (fs : FS F MS OS) (d : String) :
    ({ fs with dirs := d :: fs.dirs } : FS F MS OS).dirContains d = true := by
  unfold FS.dirContains
  simp [List.contains]

theorem makedirsAux_ok_of_parent (n : Nat) (fs : FS F MS OS) (p : String)
    (h : dirname p = "" ∨ fs.dirContains (dirname p) = true) :
    makedirsAux (n + 1) fs p = .ok { fs with dirs := p :: fs.dirs } := by
  have hg1 : ((dirname p == "") || fs.pathExists (dirname p)) = true := by
    rcases h with h | h
    · rw [h]
      simp
    · unfold FS.pathExists
      rw [h]
      simp
  have hg2 : ((dirname p == "") || fs.dirContains (dirname p)) = true := by
    rcases h with h | h
    · rw [h]
      simp
    · rw [h]
      simp
  simp only [makedirsAux, hg1, if_true, hg2]

theorem makedirsAux_ok_of_rec (n : Nat) (fs fs1 : FS F MS OS) (p : String)
    (hne : dirname p ≠ "")
    (hpe : fs.pathExists (dirname p) = false)
    (hrec : makedirsAux n fs (dirname p) = .ok fs1)
    (hmem : fs1.dirContains (dirname p) = true) :
    makedirsAux (n + 1) fs p = .ok { fs1 with dirs := p :: fs1.dirs } := by
  have hg1 : ((dirname p == "") || fs.pathExists (dirname p)) = false := by
    rw [hpe, beq_empty_false_of_ne _ hne]
    rfl
  have hg2 : ((dirname p == "") || fs1.dirContains (dirname p)) = true := by
    rw [hmem]
    simp
  simp only [makedirsAux, hg1, Bool.false_eq_true, if_false, hrec, hg2, if_true]

theorem basicConfigFile_dirs (fn : String) (fs : FS F MS OS) (g : Globals) :
    (basicConfigFile fn fs g).2.1.dirs = fs.dirs := by
  unfold basicConfigFile
  by_cases h1 : g.logHandlers.isEmpty <;>
    by_cases h2 : fs.dirOk fn <;>
      by_cases h3 : fs.isfile fn <;>
        simp [h1, h2, h3]

theorem create_logger_fs_dirs (eid ts : String) (w : World F MS OS)
    (fs0 : FS F MS OS)
    (h : (if w.fs.pathExists (logDir eid) then Except.ok w.fs
          else w.fs.makedirs (logDir eid)) = Except.ok fs0) :
    (create_logger eid ts w).2.fs.dirs = fs0.dirs := by
  have hb := basicConfigFile_dirs (logFilePath eid ts) fs0 w.g
  unfold create_logger
  rw [h]
  rcases hr : basicConfigFile (logFilePath eid ts) fs0 w.g with ⟨r1, fs1, g1, ev⟩
  rw [hr] at hb
  cases r1 <;> simp [hr] <;> exact hb

theorem csvRows_append (xs ys : List (Chunk F MS OS)) :
    csvRows (xs ++ ys) = csvRows xs ++ csvRows ys := by
  unfold csvRows
  rw [List.filterMap_append]

theorem mem_csvRows_last (xs : List (Chunk F MS OS)) (r : List (Cell F)) :
    r ∈ csvRows (xs ++ [Chunk.csvRow r]) := by
  rw [csvRows_append]
  apply List.mem_append_right
  simp [csvRows]

theorem allClosedB_oc (fn m1 : String) :
    allClosedB [HEvent.hopen fn m1, HEvent.hclose fn] = true := by
  simp [allClosedB, openedPaths, closedPaths]

theorem allClosedB_ococ (fn m1 m2 : String) :
    allClosedB [HEvent.hopen fn m1, HEvent.hclose fn,
      HEvent.hopen fn m2, HEvent.hclose fn] = true := by
  simp [allClosedB, openedPaths, closedPaths]

theorem checkpointLoadPath_eq_savePath (eid : String) :
    checkpointLoadPath eid = savePath eid "checkpoint.pth.tar" := rfl

theorem dirOk_eq_of_dirs (fs1 fs2 : FS F MS OS) (h : fs1.dirs = fs2.dirs)
    (p : String) : fs1.dirOk p = fs2.dirOk p := by
  unfold FS.dirOk FS.dirContains
  rw [h]

/- ### Claims -/

/-- Claim C1: for every `experiment_id`, `next_epoch`, `best_acc`, model and
optimizer, after `save_checkpoint` with the default filename
`"checkpoint.pth.tar"`, a call to `load_checkpoint` on the same experiment
returns the very `next_epoch` and `best_acc` that were saved. -/
theorem checkpoint_roundtrip (eid : String) (e : Int) (a : F) (m o m2 o2 : Nat)
    (w w' : World F MS OS)
    (hok : save_checkpoint eid e a m o "checkpoint.pth.tar" w = (Except.ok (), w')) :
    (load_checkpoint eid m2 o2 w').1
      = Except.ok (m2, o2, PyVal.vInt e, PyVal.vFloat a) := by
  cases hm : getAddr w.modelHeap m with
  | none => simp [save_checkpoint, save_checkpoint_core, hm] at hok
  | some ms =>
    cases hopt : getAddr w.optimHeap o with
    | none => simp [save_checkpoint, save_checkpoint_core, hm, hopt] at hok
    | some od =>
      cases hd : w.fs.dirOk (savePath eid "checkpoint.pth.tar") with
      | false =>
        simp [save_checkpoint, save_checkpoint_core, torchSave, hm, hopt, hd] at hok
      | true =>
        have hw' : w' = (save_checkpoint eid e a m o "checkpoint.pth.tar" w).2 := by
          rw [hok]
        subst hw'
        simp [save_checkpoint, save_checkpoint_core, torchSave, hm, hopt, hd,
          load_checkpoint, load_checkpoint_core, torchLoad,
          checkpointLoadPath_eq_savePath, lookup_setFile_self, List.lookup]

/-- C1 witness: a concrete round trip through `demoW`. -/
theorem checkpoint_roundtrip_witness :
    (load_checkpoint "e" 0 0
        (save_checkpoint "e" 3 9 0 0 "checkpoint.pth.tar" demoW).2).1
      = Except.ok (0, 0, PyVal.vInt 3, PyVal.vFloat 9) :=
  checkpoint_roundtrip "e" 3 9 0 0 0 0 demoW
    (save_checkpoint "e" 3 9 0 0 "checkpoint.pth.tar" demoW).2 (by decide)

/-- Claim C4: every checkpoint written by `save_checkpoint` is the
serialization of a dictionary holding exactly the keys `next_epoch`,
`best_acc`, `model_state_dict` and `optimizer_state_dict`, with the values
passed to the call (the state dicts being those of the model and optimizer
arguments at call time). -/
theorem checkpoint_file_contents (eid filename : String) (e : Int) (a : F)
    (m o : Nat) (w w' : World F MS OS)
    (hok : save_checkpoint eid e a m o filename w = (Except.ok (), w')) :
    ∃ ms od, getAddr w.modelHeap m = some ms ∧ getAddr w.optimHeap o = some od ∧
      w'.fs.files.lookup (savePath eid filename)
        = some [Chunk.blob (PyObj.pyCkptDict
            [("next_epoch", PyVal.vInt e), ("best_acc", PyVal.vFloat a),
             ("model_state_dict", PyVal.vModelState ms),
             ("optimizer_state_dict", PyVal.vOptimState od)])] := by
  cases hm : getAddr w.modelHeap m with
  | none => simp [save_checkpoint, save_checkpoint_core, hm] at hok
  | some ms =>
    cases hopt : getAddr w.optimHeap o with
    | none => simp [save_checkpoint, save_checkpoint_core, hm, hopt] at hok
    | some od =>
      cases hd : w.fs.dirOk (savePath eid filename) with
      | false =>
        simp [save_checkpoint, save_checkpoint_core, torchSave, hm, hopt, hd] at hok
      | true =>
        have hw' : w' = (save_checkpoint eid e a m o filename w).2 := by
          rw [hok]
        subst hw'
        refine ⟨ms, od, rfl, rfl, ?_⟩
        simp [save_checkpoint, save_checkpoint_core, torchSave, hm, hopt, hd,
          lookup_setFile_self]

/-- C4 witness: the file written for a concrete call holds exactly the
four-key dictionary. -/
theorem checkpoint_file_contents_witness :
    (save_checkpoint "e" 3 9 0 0 "ck.pth" demoW).2.fs.files.lookup
        (savePath "e" "ck.pth")
      = some [Chunk.blob (PyObj.pyCkptDict
          [("next_epoch", PyVal.vInt 3), ("best_acc", PyVal.vFloat 9),
           ("model_state_dict", PyVal.vModelState 5),
           ("optimizer_state_dict", PyVal.vOptimState 7)])] := by
  obtain ⟨ms, od, h1, h2, h3⟩ := checkpoint_file_contents "e" "ck.pth" 3 9 0 0
      demoW (save_checkpoint "e" 3 9 0 0 "ck.pth" demoW).2 (by decide)
  have h5 : getAddr demoW.modelHeap 0 = some (5 : Int) := by decide
  have h7 : getAddr demoW.optimHeap 0 = some (7 : Int) := by decide
  have hms : (5 : Int) = ms := Option.some.inj ((h5.symm).trans h1)
  have hod : (7 : Int) = od := Option.some.inj ((h7.symm).trans h2)
  rw [← hms, ← hod] at h3
  exact h3

/-- Claim C2: after a successful `save_plotting_data(experiment_id, metric,
epoch, metric_val)`, reading the metrics CSV file back yields a row with
that same epoch and that same value. -/
theorem plotting_roundtrip (eid metric : String) (e : Int) (v : F)
    (w w' : World F MS OS)
    (hok : save_plotting_data eid metric e v w = (Except.ok (), w')) :
    ∃ content, w'.fs.files.lookup (plottingPath eid metric) = some content
      ∧ [Cell.cint e, Cell.cfloat v] ∈ csvRows content := by
  have hw' : w' = (save_plotting_data eid metric e v w).2 := by rw [hok]
  subst hw'
  cases hisf : w.fs.isfile (plottingPath eid metric) with
  | true =>
    cases hd : w.fs.dirOk (plottingPath eid metric) with
    | false =>
      simp [save_plotting_data, save_plotting_data_core, appendRowCore,
        hisf, hd] at hok
    | true =>
      refine ⟨((w.fs.files.lookup (plottingPath eid metric)).getD [])
          ++ [Chunk.csvRow [Cell.cint e, Cell.cfloat v]], ?_,
          mem_csvRows_last _ _⟩
      simp [save_plotting_data, save_plotting_data_core, appendRowCore, hisf, hd]
  | false =>
    cases hd : w.fs.dirOk (plottingPath eid metric) with
    | false =>
      simp [save_plotting_data, save_plotting_data_core, appendRowCore,
        hisf, hd] at hok
    | true =>
      refine ⟨[Chunk.csvRow [Cell.cstr "epoch", Cell.cstr metric]]
          ++ [Chunk.csvRow [Cell.cint e, Cell.cfloat v]], ?_,
          mem_csvRows_last _ _⟩
      simp [save_plotting_data, save_plotting_data_core, appendRowCore, hisf, hd]

/-- C2 witness: the concrete row written for `demoW` is read back. -/
theorem plotting_roundtrip_witness :
    [Cell.cint 1, Cell.cfloat (42 : Int)] ∈ csvRows
      (((save_plotting_data "e" "loss" 1 (42 : Int) demoW).2.fs.files.lookup
        (plottingPath "e" "loss")).getD []) := by
  obtain ⟨content, h1, h2⟩ := plotting_roundtrip "e" "loss" 1 (42 : Int) demoW
      (save_plotting_data "e" "loss" 1 (42 : Int) demoW).2 (by decide)
  rw [h1]
  exact h2

theorem save_plotting_data_step (eid metric : String) (e : Int) (v : F)
    (w : World F MS OS) (chs : List (Chunk F MS OS))
    (hf : w.fs.files.lookup (plottingPath eid metric) = some chs)
    (hd : w.fs.dirOk (plottingPath eid metric) = true) :
    (save_plotting_data eid metric e v w).2.fs.files.lookup (plottingPath eid metric)
        = some (chs ++ [Chunk.csvRow [Cell.cint e, Cell.cfloat v]])
    ∧ (save_plotting_data eid metric e v w).2.fs.dirs = w.fs.dirs := by
  have hisf : w.fs.isfile (plottingPath eid metric) = true := by
    unfold FS.isfile
    rw [hf]
    rfl
  constructor <;>
    simp [save_plotting_data, save_plotting_data_core, appendRowCore,
      hisf, hd, hf]

theorem save_plotting_data_first (eid metric : String) (e : Int) (v : F)
    (w : World F MS OS)
    (hf : w.fs.files.lookup (plottingPath eid metric) = none)
    (hd : w.fs.dirOk (plottingPath eid metric) = true) :
    (save_plotting_data eid metric e v w).2.fs.files.lookup (plottingPath eid metric)
        = some [Chunk.csvRow [Cell.cstr "epoch", Cell.cstr metric],
                Chunk.csvRow [Cell.cint e, Cell.cfloat v]]
    ∧ (save_plotting_data eid metric e v w).2.fs.dirs = w.fs.dirs := by
  have hisf : w.fs.isfile (plottingPath eid metric) = false := by
    unfold FS.isfile
    rw [hf]
    rfl
  constructor <;>
    simp [save_plotting_data, save_plotting_data_core, appendRowCore, hisf, hd]

theorem runPlots_append (eid metric : String) (calls : List (Int × F))
    (w : World F MS OS) (chs : List (Chunk F MS OS))
    (hf : w.fs.files.lookup (plottingPath eid metric) = some chs)
    (hd : w.fs.dirOk (plottingPath eid metric) = true) :
    (runPlots eid metric calls w).fs.files.lookup (plottingPath eid metric)
        = some (chs ++ calls.map
            (fun c => Chunk.csvRow [Cell.cint c.1, Cell.cfloat c.2]))
    ∧ (runPlots eid metric calls w).fs.dirs = w.fs.dirs := by
  induction calls generalizing w chs with
  | nil =>
    constructor
    · simpa [runPlots] using hf
    · rfl
  | cons c rest ih =>
    have hstep := save_plotting_data_step eid metric c.1 c.2 w chs hf hd
    have hd' : (save_plotting_data eid metric c.1 c.2 w).2.fs.dirOk
        (plottingPath eid metric) = true :=
      (dirOk_eq_of_dirs _ _ hstep.2 _).trans hd
    have hrun : runPlots eid metric (c :: rest) w
        = runPlots eid metric rest (save_plotting_data eid metric c.1 c.2 w).2 := rfl
    rw [hrun]
    obtain ⟨ha, hb⟩ := ih _ _ hstep.1 hd'
    constructor
    · rw [ha]
      simp
    · rw [hb, hstep.2]

/-- Claim C3: starting from a state where the metrics CSV file does not
exist, a sequence of `save_plotting_data` calls (same experiment and
metric) leaves the file holding exactly one header row `epoch,<metric>`
followed by one data row per call, in call order; earlier rows are never
rewritten or removed. -/
theorem plotting_append_only (eid metric : String) (calls : List (Int × F))
    (w : World F MS OS) (hne : calls ≠ [])
    (hf : w.fs.files.lookup (plottingPath eid metric) = none)
    (hd : w.fs.dirOk (plottingPath eid metric) = true) :
    (runPlots eid metric calls w).fs.files.lookup (plottingPath eid metric)
      = some (Chunk.csvRow [Cell.cstr "epoch", Cell.cstr metric]
          :: calls.map (fun c => Chunk.csvRow [Cell.cint c.1, Cell.cfloat c.2])) := by
  cases calls with
  | nil => exact absurd rfl hne
  | cons c rest =>
    have hfirst := save_plotting_data_first eid metric c.1 c.2 w hf hd
    have hd' : (save_plotting_data eid metric c.1 c.2 w).2.fs.dirOk
        (plottingPath eid metric) = true :=
      (dirOk_eq_of_dirs _ _ hfirst.2 _).trans hd
    have hrun : runPlots eid metric (c :: rest) w
        = runPlots eid metric rest (save_plotting_data eid metric c.1 c.2 w).2 := rfl
    rw [hrun]
    obtain ⟨ha, _⟩ := runPlots_append eid metric rest _ _ hfirst.1 hd'
    rw [ha]
    simp

/-- C3 witness: two concrete calls produce header plus two rows in order. -/
theorem plotting_append_only_witness :
    (runPlots "e" "loss" [((1 : Int), (10 : Int)), (2, 20)] demoW).fs.files.lookup
        (plottingPath "e" "loss")
      = some [Chunk.csvRow [Cell.cstr "epoch", Cell.cstr "loss"],
              Chunk.csvRow [Cell.cint 1, Cell.cfloat 10],
              Chunk.csvRow [Cell.cint 2, Cell.cfloat 20]] := by
  have h := plotting_append_only "e" "loss" [((1 : Int), (10 : Int)), (2, 20)]
      demoW (by decide) (by decide) (by decide)
  simpa using h

/-- Claim C5 (amended): provided `experiment_id` is nonempty and neither
starts nor ends with a slash, and `metric`, `filename` and the timestamp do
not start with a slash, every path the functions use follows the stated
layout: `out/<experiment_id>/logs/<timestamp>.log` for `create_logger`,
`out/<experiment_id>/<metric>.csv` for `save_plotting_data`,
`out/<experiment_id>/checkpoint.pth.tar` for `load_checkpoint`,
`out/<experiment_id>/best_model.pth.tar` for `load_best_model`, and
`out/<experiment_id>/<filename>` for `save_checkpoint`/`save_model`. -/
theorem path_layout_amended (eid metric filename ts : String)
    (h1 : eid ≠ "") (h2 : startsWithSlash eid = false)
    (h3 : endsWithSlash eid = false) (h4 : startsWithSlash metric = false)
    (h5 : startsWithSlash filename = false) (h6 : startsWithSlash ts = false) :
    logFilePath eid ts = "out/" ++ eid ++ "/logs/" ++ ts ++ ".log"
    ∧ plottingPath eid metric = "out/" ++ eid ++ "/" ++ metric ++ ".csv"
    ∧ checkpointLoadPath eid = "out/" ++ eid ++ "/checkpoint.pth.tar"
    ∧ bestModelPath eid = "out/" ++ eid ++ "/best_model.pth.tar"
    ∧ savePath eid filename = "out/" ++ eid ++ "/" ++ filename :=
  ⟨logFilePath_eq eid ts h1 h2 h3 h6,
   plottingPath_eq eid metric h1 h2 h3 h4,
   checkpointLoadPath_eq eid h1 h2 h3,
   bestModelPath_eq eid h1 h2 h3,
   savePath_eq eid filename h1 h2 h3 h5⟩

/-- C5 counterexample: the claim quantifies over every `experiment_id`, but
for `experiment_id = "/e"` (`os.path.join` drops all earlier components
before an absolute one) `load_checkpoint` reads `/e/checkpoint.pth.tar`,
not `out//e/checkpoint.pth.tar` — it fails with a `FileNotFoundError`
naming the former even though the file at the claimed literal layout
exists. -/
theorem path_layout_counterexample :
    checkpointLoadPath "/e" ≠ "out/" ++ "/e" ++ "/checkpoint.pth.tar"
    ∧ layoutW.fs.files.lookup ("out/" ++ "/e" ++ "/checkpoint.pth.tar") ≠ none
    ∧ (load_checkpoint "/e" 0 0 layoutW).1
        = Except.error (PyErr.fileNotFoundError "/e/checkpoint.pth.tar") :=
  ⟨by decide, by decide, by decide⟩

/-- C5 witness: the layout at a well-formed experiment id. -/
theorem path_layout_amended_witness :
    logFilePath "e" "t" = "out/e/logs/t.log"
    ∧ plottingPath "e" "loss" = "out/e/loss.csv"
    ∧ checkpointLoadPath "e" = "out/e/checkpoint.pth.tar"
    ∧ bestModelPath "e" = "out/e/best_model.pth.tar"
    ∧ savePath "e" "m.pth" = "out/e/m.pth" := by
  obtain ⟨a, b, c, d, e⟩ := path_layout_amended "e" "loss" "m.pth" "t"
      (by decide) (by decide) (by decide) (by decide) (by decide) (by decide)
  refine ⟨?_, ?_, ?_, ?_, ?_⟩
  · rw [a]; decide
  · rw [b]; decide
  · rw [c]; decide
  · rw [d]; decide
  · rw [e]; decide

/-- Claim C6: errors raised by `torch.load` on a missing or malformed
checkpoint file propagate unchanged through `load_checkpoint` and
`load_best_model` to the caller: no catching, retrying, translating or
recovering, and the call leaves the world untouched. -/
theorem load_error_propagation (eid : String) (m o : Nat) (w : World F MS OS) :
    (∀ err, torchLoad (checkpointLoadPath eid) w.fs = Except.error err →
        load_checkpoint eid m o w = (Except.error err, w))
    ∧ (∀ err, torchLoad (bestModelPath eid) w.fs = Except.error err →
        load_best_model eid m w = (Except.error err, w)) := by
  constructor
  · intro err h
    unfold load_checkpoint load_checkpoint_core
    rw [h]
  · intro err h
    unfold load_best_model load_best_model_core
    rw [h]

/-- C6 witness: both loaders surface `FileNotFoundError` unchanged on an
empty filesystem. -/
theorem load_error_propagation_witness :
    load_checkpoint "e" 0 0 emptyW
        = (Except.error (PyErr.fileNotFoundError "out/e/checkpoint.pth.tar"), emptyW)
    ∧ load_best_model "e" 0 emptyW
        = (Except.error (PyErr.fileNotFoundError "out/e/best_model.pth.tar"), emptyW) :=
  ⟨(load_error_propagation "e" 0 0 emptyW).1 _ (by decide),
   (load_error_propagation "e" 0 0 emptyW).2 _ (by decide)⟩

/-- Claim C10: `load_checkpoint` restores the checkpoint's state dicts into
the model and optimizer objects passed in (in place, at their addresses)
and returns those very objects, not fresh copies; likewise
`load_best_model` for the model.  Neither touches the filesystem. -/
theorem load_in_place_identity (eid : String) (m o : Nat) (w : World F MS OS) :
    (∀ r w', load_checkpoint eid m o w = (Except.ok r, w') →
        r.1 = m ∧ r.2.1 = o
        ∧ ∃ entries ms od,
            torchLoad (checkpointLoadPath eid) w.fs
              = Except.ok (PyObj.pyCkptDict entries)
            ∧ entries.lookup "model_state_dict" = some (PyVal.vModelState ms)
            ∧ entries.lookup "optimizer_state_dict" = some (PyVal.vOptimState od)
            ∧ getAddr w'.modelHeap m = some ms
            ∧ getAddr w'.optimHeap o = some od
            ∧ w'.fs = w.fs)
    ∧ (∀ rm w', load_best_model eid m w = (Except.ok rm, w') →
        rm = m ∧ ∃ ms, torchLoad (bestModelPath eid) w.fs
            = Except.ok (PyObj.pyModelState ms)
          ∧ getAddr w'.modelHeap m = some ms ∧ w'.fs = w.fs) := by
  constructor
  · intro r w' hok
    cases htl : torchLoad (checkpointLoadPath eid) w.fs with
    | error err => simp [load_checkpoint, load_checkpoint_core, htl] at hok
    | ok obj =>
      cases obj with
      | pyModelState ms =>
        simp [load_checkpoint, load_checkpoint_core, htl] at hok
      | pyCkptDict entries =>
        cases hml : entries.lookup "model_state_dict" with
        | none => simp [load_checkpoint, load_checkpoint_core, htl, hml] at hok
        | some pv =>
          cases pv with
          | vInt i => simp [load_checkpoint, load_checkpoint_core, htl, hml] at hok
          | vFloat x => simp [load_checkpoint, load_checkpoint_core, htl, hml] at hok
          | vOptimState od =>
            simp [load_checkpoint, load_checkpoint_core, htl, hml] at hok
          | vModelState ms =>
            cases hol : entries.lookup "optimizer_state_dict" with
            | none =>
              simp [load_checkpoint, load_checkpoint_core, htl, hml, hol] at hok
            | some pv2 =>
              cases pv2 with
              | vInt i =>
                simp [load_checkpoint, load_checkpoint_core, htl, hml, hol] at hok
              | vFloat x =>
                simp [load_checkpoint, load_checkpoint_core, htl, hml, hol] at hok
              | vModelState ms2 =>
                simp [load_checkpoint, load_checkpoint_core, htl, hml, hol] at hok
              | vOptimState od =>
                cases hnx : entries.lookup "next_epoch" with
                | none =>
                  simp [load_checkpoint, load_checkpoint_core, htl, hml, hol,
                    hnx] at hok
                | some nx =>
                  cases hba : entries.lookup "best_acc" with
                  | none =>
                    simp [load_checkpoint, load_checkpoint_core, htl, hml, hol,
                      hnx, hba] at hok
                  | some ba =>
                    simp only [load_checkpoint, load_checkpoint_core, htl, hml,
                      hol, hnx, hba, Prod.mk.injEq, Except.ok.injEq] at hok
                    obtain ⟨hr, hw⟩ := hok
                    subst hr
                    subst hw
                    refine ⟨rfl, rfl, entries, ms, od, rfl, hml, hol, ?_, ?_, rfl⟩
                    · exact lookup_setAssoc_self _ _ _
                    · exact lookup_setAssoc_self _ _ _
  · intro rm w' hok
    cases htl : torchLoad (bestModelPath eid) w.fs with
    | error err => simp [load_best_model, load_best_model_core, htl] at hok
    | ok obj =>
      cases obj with
      | pyCkptDict entries =>
        simp [load_best_model, load_best_model_core, htl] at hok
      | pyModelState ms =>
        simp only [load_best_model, load_best_model_core, htl, Prod.mk.injEq,
          Except.ok.injEq] at hok
        obtain ⟨hr, hw⟩ := hok
        subst hr
        subst hw
        exact ⟨rfl, ms, rfl, lookup_setAssoc_self _ _ _, rfl⟩

/-- C10 witness: both loaders leave the filesystem untouched on concrete
successful runs. -/
theorem load_in_place_identity_witness :
    (load_checkpoint "e" 0 0 loadedW).2.fs = loadedW.fs
    ∧ (load_best_model "e" 0 bestW).2.fs = bestW.fs := by
  have h := (load_in_place_identity "e" 0 0 loadedW).1
      ((0, 0, PyVal.vInt 3, PyVal.vFloat 9) :
        Nat × Nat × PyVal Int Int Int × PyVal Int Int Int)
      (load_checkpoint "e" 0 0 loadedW).2 (by rfl)
  obtain ⟨-, -, entries, ms, od, -, -, -, -, -, hfs⟩ := h
  have h2 := (load_in_place_identity "e" 0 0 bestW).2 0
      (load_best_model "e" 0 bestW).2 (by rfl)
  obtain ⟨-, ms2, -, -, hfs2⟩ := h2
  exact ⟨hfs, hfs2⟩

theorem allClosedB_nil : allClosedB ([] : List HEvent) = true := rfl

/-- Claim C7 counterexample (the claim as stated is false): `create_logger`
installs a logging `FileHandler` that opens the log file during the call
and does not close it before returning — the handle persists across
calls. -/
theorem handle_closed_counterexample :
    (create_logger "e1" "t" logW).2.trace
        = [HEvent.hopen "out/e1/logs/t.log" "a"]
    ∧ allClosedB (create_logger "e1" "t" logW).2.trace = false :=
  ⟨by decide, by decide⟩

/-- Claim C7 (amended): `save_plotting_data` closes every file handle it
opens before returning (each `with open(...)` block closes on exit);
`create_logger`, however, leaves its logging file handle open. -/
theorem save_plotting_data_closes_handles (eid metric : String) (epoch : Int)
    (v : F) (fs : FS F MS OS) :
    allClosedB (save_plotting_data_core eid metric epoch v fs).2.2 = true := by
  cases hisf : fs.isfile (plottingPath eid metric) with
  | true =>
    cases hd : fs.dirOk (plottingPath eid metric) with
    | true =>
      simp [save_plotting_data_core, appendRowCore, hisf, hd, allClosedB_oc]
    | false =>
      simp [save_plotting_data_core, appendRowCore, hisf, hd, allClosedB_nil]
  | false =>
    cases hd : fs.dirOk (plottingPath eid metric) with
    | true =>
      simp [save_plotting_data_core, appendRowCore, hisf, hd, allClosedB_ococ]
    | false =>
      simp [save_plotting_data_core, appendRowCore, hisf, hd, allClosedB_nil]

/-- Claim C8 counterexample (the claim as stated is false): `create_logger`'s
outcome depends on process-global logging state.  Called with identical
arguments on an identical filesystem, a fresh process ends up logging to
`out/e2/logs/t.log`, but a process in which `create_logger "e1"` already
ran keeps logging to `out/e1/logs/t.log` (`logging.basicConfig` is a no-op
once the root logger has handlers). -/
theorem globals_independence_counterexample :
    (create_logger "e1" "t" logW).2.fs = logW.fs
    ∧ (create_logger "e2" "t" logW).2.g
        ≠ (create_logger "e2" "t" (create_logger "e1" "t" logW).2).2.g :=
  ⟨by decide, by decide⟩

/-- Claim C8 (amended): the checkpoint and CSV functions
(`save_plotting_data`, `save_checkpoint`, `load_checkpoint`,
`load_best_model`, `save_model`) depend only on their arguments, the
filesystem and the state of the objects passed in, and they never read nor
modify the process-global logging/RNG/environment state; `create_logger`
(global logging configuration) and `fix_all_seeds` (global seeds and
environment) are the exceptions. -/
theorem fs_functions_globals_independence
    (eid metric filename : String) (epoch nx : Int) (v a : F) (m o : Nat)
    (w w2 : World F MS OS) (hfs : w2.fs = w.fs)
    (hm : w2.modelHeap = w.modelHeap) (ho : w2.optimHeap = w.optimHeap) :
    ((save_plotting_data eid metric epoch v w2).1
        = (save_plotting_data eid metric epoch v w).1
      ∧ (save_plotting_data eid metric epoch v w2).2.fs
        = (save_plotting_data eid metric epoch v w).2.fs
      ∧ (save_plotting_data eid metric epoch v w).2.g = w.g)
    ∧ ((save_checkpoint eid nx a m o filename w2).1
        = (save_checkpoint eid nx a m o filename w).1
      ∧ (save_checkpoint eid nx a m o filename w2).2.fs
        = (save_checkpoint eid nx a m o filename w).2.fs
      ∧ (save_checkpoint eid nx a m o filename w).2.g = w.g)
    ∧ ((load_checkpoint eid m o w2).1 = (load_checkpoint eid m o w).1
      ∧ (load_checkpoint eid m o w2).2.modelHeap
        = (load_checkpoint eid m o w).2.modelHeap
      ∧ (load_checkpoint eid m o w2).2.optimHeap
        = (load_checkpoint eid m o w).2.optimHeap
      ∧ (load_checkpoint eid m o w).2.fs = w.fs
      ∧ (load_checkpoint eid m o w).2.g = w.g)
    ∧ ((load_best_model eid m w2).1 = (load_best_model eid m w).1
      ∧ (load_best_model eid m w2).2.modelHeap
        = (load_best_model eid m w).2.modelHeap
      ∧ (load_best_model eid m w).2.fs = w.fs
      ∧ (load_best_model eid m w).2.g = w.g)
    ∧ ((save_model m eid filename w2).1 = (save_model m eid filename w).1
      ∧ (save_model m eid filename w2).2.fs = (save_model m eid filename w).2.fs
      ∧ (save_model m eid filename w).2.g = w.g) := by
  refine ⟨⟨?_, ?_, ?_⟩, ⟨?_, ?_, ?_⟩, ⟨?_, ?_, ?_, ?_, ?_⟩, ⟨?_, ?_, ?_, ?_⟩,
    ⟨?_, ?_, ?_⟩⟩ <;>
    simp [save_plotting_data, save_checkpoint, load_checkpoint, load_best_model,
      save_model, hfs, hm, ho]

/-- C8 witness: identical filesystem and heaps with different global state
give the identical result for `save_plotting_data`. -/
theorem fs_functions_globals_independence_witness :
    (save_plotting_data "e" "loss" 1 (2 : Int) demoW2).1
      = (save_plotting_data "e" "loss" 1 (2 : Int) demoW).1 :=
  (fs_functions_globals_independence "e" "loss" "f.pth" 1 0 2 0 0 0
      demoW demoW2 (by decide) (by decide) (by decide)).1.1

theorem startsWithSlash_false_of_not_mem (s : String) (h : '/' ∉ s.data) :
    startsWithSlash s = false := by
  unfold startsWithSlash
  cases hs : s.data with
  | nil => rfl
  | cons c cs =>
    have hc : c ≠ '/' := by
      intro he
      apply h
      rw [hs, he]
      exact List.mem_cons_self _ _
    apply beq_eq_false_iff_ne.mpr
    simp [hc]

theorem mem_of_dirContains (fs : FS F MS OS) (d : String)
    (h : fs.dirContains d = true) : d ∈ fs.dirs := by
  unfold FS.dirContains at h
  exact List.elem_iff.mp h

theorem save_checkpoint_dirs (eid filename : String) (e : Int) (a : F)
    (m o : Nat) (w : World F MS OS) :
    (save_checkpoint eid e a m o filename w).2.fs.dirs = w.fs.dirs := by
  cases hm : getAddr w.modelHeap m with
  | none => simp [save_checkpoint, save_checkpoint_core, hm]
  | some ms =>
    cases hopt : getAddr w.optimHeap o with
    | none => simp [save_checkpoint, save_checkpoint_core, hm, hopt]
    | some od =>
      cases hdk : w.fs.dirOk (savePath eid filename) with
      | true =>
        simp [save_checkpoint, save_checkpoint_core, torchSave, hm, hopt, hdk]
      | false =>
        simp [save_checkpoint, save_checkpoint_core, torchSave, hm, hopt, hdk]

theorem save_model_dirs (eid filename : String) (m : Nat) (w : World F MS OS) :
    (save_model m eid filename w).2.fs.dirs = w.fs.dirs := by
  cases hm : getAddr w.modelHeap m with
  | none => simp [save_model, save_model_core, hm]
  | some ms =>
    cases hdk : w.fs.dirOk (savePath eid filename) with
    | true => simp [save_model, save_model_core, torchSave, hm, hdk]
    | false => simp [save_model, save_model_core, torchSave, hm, hdk]

/-- Claim C9: `save_checkpoint` and `save_model` never create directories
(their calls leave the directory set untouched); when the directory
`out/<experiment_id>` does not exist they fail with the underlying
library's error and write nothing, leaving the world unchanged; whereas
`create_logger` creates both `out/<experiment_id>` and its `logs`
subdirectory when they are missing — provided creating them is possible,
that is, the experiment id is slash-free and no regular file sits at
`out`, `out/<experiment_id>` or the `logs` path (`os.makedirs` would raise
`NotADirectoryError` otherwise). -/
theorem dir_creation_discipline (eid filename ts : String) (e : Int) (a : F)
    (m o : Nat) (w : World F MS OS)
    (h1 : eid ≠ "") (h2 : startsWithSlash eid = false)
    (h3 : endsWithSlash eid = false) (h5 : '/' ∉ filename.data) :
    ((save_checkpoint eid e a m o filename w).2.fs.dirs = w.fs.dirs
      ∧ (save_model m eid filename w).2.fs.dirs = w.fs.dirs)
    ∧ (w.fs.dirContains ("out/" ++ eid) = false →
        ∀ ms od, getAddr w.modelHeap m = some ms →
          getAddr w.optimHeap o = some od →
          save_checkpoint eid e a m o filename w
              = (Except.error (PyErr.parentDirMissing ("out/" ++ eid)), w)
            ∧ save_model m eid filename w
              = (Except.error (PyErr.parentDirMissing ("out/" ++ eid)), w))
    ∧ ('/' ∉ eid.data →
        w.fs.isfile "out" = false →
        w.fs.pathExists (logDir eid) = false →
        w.fs.isfile ("out/" ++ eid) = false →
        ("out/" ++ eid) ∈ (create_logger eid ts w).2.fs.dirs
          ∧ ("out/" ++ eid ++ "/logs") ∈ (create_logger eid ts w).2.fs.dirs) := by
  have hsw : startsWithSlash filename = false :=
    startsWithSlash_false_of_not_mem filename h5
  have hsp : savePath eid filename = "out/" ++ eid ++ "/" ++ filename :=
    savePath_eq eid filename h1 h2 h3 hsw
  have hdn : dirname (savePath eid filename) = "out/" ++ eid := by
    rw [hsp]
    exact dirname_sep_append _ _ (endsWithSlash_out_append eid h1 h3)
      (out_append_ne_empty eid) h5
  refine ⟨⟨save_checkpoint_dirs eid filename e a m o w,
          save_model_dirs eid filename m w⟩, ?_, ?_⟩
  · intro hdc ms od hms hod
    have hdo : w.fs.dirOk (savePath eid filename) = false := by
      unfold FS.dirOk
      rw [hdn, hdc, beq_empty_false_of_ne _ (out_append_ne_empty eid)]
      rfl
    constructor
    · simp [save_checkpoint, save_checkpoint_core, torchSave, hms, hod, hdo, hdn]
    · simp [save_model, save_model_core, torchSave, hms, hdo, hdn]
  · intro heid hout hple hnf
    have hld := logDir_eq eid h1 h2 h3
    have hassoc2 : ("out/" ++ eid ++ "/" : String) ++ "logs"
        = "out/" ++ eid ++ "/logs" := strAppend_assoc ("out/" ++ eid) "/" "logs"
    have hdn3 : dirname ("out/" ++ eid ++ "/logs") = "out/" ++ eid := by
      rw [← hassoc2]
      exact dirname_sep_append _ _ (endsWithSlash_out_append eid h1 h3)
        (out_append_ne_empty eid) (by decide)
    have e1 : ("out" ++ "/" : String) ++ eid = "out/" ++ eid := rfl
    have hdnd : dirname ("out/" ++ eid) = "out" := by
      rw [← e1]
      exact dirname_sep_append "out" eid (by decide) (by decide) heid
    obtain ⟨k, hk⟩ : ∃ k, ("out/" ++ eid ++ "/logs" : String).length = k + 3 := by
      refine ⟨("out/" ++ eid).length + 2, ?_⟩
      rw [string_length_append]
      have h5l : ("/logs" : String).length = 5 := rfl
      rw [h5l]
    have hmk : ∃ fsR, w.fs.makedirs ("out/" ++ eid ++ "/logs") = .ok fsR
        ∧ ("out/" ++ eid) ∈ fsR.dirs
        ∧ ("out/" ++ eid ++ "/logs") ∈ fsR.dirs := by
      unfold FS.makedirs
      cases hpd : w.fs.pathExists ("out/" ++ eid) with
      | true =>
        have hcd : w.fs.dirContains ("out/" ++ eid) = true := by
          unfold FS.pathExists at hpd
          rw [hnf] at hpd
          simpa using hpd
        refine ⟨_, makedirsAux_ok_of_parent _ w.fs _
            (Or.inr (by rw [hdn3]; exact hcd)), ?_, ?_⟩
        · exact List.mem_cons_of_mem _ (mem_of_dirContains _ _ hcd)
        · exact List.mem_cons_self _ _
      | false =>
        rw [hk]
        cases hpo : w.fs.pathExists "out" with
        | true =>
          have hco : w.fs.dirContains "out" = true := by
            unfold FS.pathExists at hpo
            rw [hout] at hpo
            simpa using hpo
          have hmid : makedirsAux (k + 3) w.fs
              (dirname ("out/" ++ eid ++ "/logs"))
              = .ok { w.fs with dirs := ("out/" ++ eid) :: w.fs.dirs } := by
            rw [hdn3]
            exact makedirsAux_ok_of_parent (k + 2) w.fs ("out/" ++ eid)
              (Or.inr (by rw [hdnd]; exact hco))
          have htop := makedirsAux_ok_of_rec (k + 3) w.fs _
              ("out/" ++ eid ++ "/logs")
              (by rw [hdn3]; exact out_append_ne_empty eid)
              (by rw [hdn3]; exact hpd) hmid
              (by rw [hdn3]; exact dirContains_cons_self w.fs ("out/" ++ eid))
          refine ⟨_, htop, ?_, ?_⟩
          · exact List.mem_cons_of_mem _ (List.mem_cons_self _ _)
          · exact List.mem_cons_self _ _
        | false =>
          have hbase : makedirsAux (k + 2) w.fs (dirname ("out/" ++ eid))
              = .ok { w.fs with dirs := "out" :: w.fs.dirs } := by
            rw [hdnd]
            exact makedirsAux_ok_of_parent (k + 1) w.fs "out" (Or.inl (by decide))
          have hmid0 := makedirsAux_ok_of_rec (k + 2) w.fs _ ("out/" ++ eid)
              (by rw [hdnd]; decide)
              (by rw [hdnd]; exact hpo) hbase
              (by rw [hdnd]; exact dirContains_cons_self w.fs "out")
          have hmid : makedirsAux (k + 3) w.fs
              (dirname ("out/" ++ eid ++ "/logs"))
              = .ok { dirs := ("out/" ++ eid) :: "out" :: w.fs.dirs,
                      files := w.fs.files } := by
            rw [hdn3]
            exact hmid0
          have htop := makedirsAux_ok_of_rec (k + 3) w.fs _
              ("out/" ++ eid ++ "/logs")
              (by rw [hdn3]; exact out_append_ne_empty eid)
              (by rw [hdn3]; exact hpd) hmid
              (by rw [hdn3]; exact dirContains_cons_self _ ("out/" ++ eid))
          refine ⟨_, htop, ?_, ?_⟩
          · exact List.mem_cons_of_mem _ (List.mem_cons_self _ _)
          · exact List.mem_cons_self _ _
    obtain ⟨fsR, hmk1, hmk2, hmk3⟩ := hmk
    have hfin : (create_logger eid ts w).2.fs.dirs = fsR.dirs := by
      apply create_logger_fs_dirs eid ts w fsR
      simp only [hple, Bool.false_eq_true, if_false]
      rw [hld]
      exact hmk1
    rw [hfin]
    exact ⟨hmk2, hmk3⟩

/-- C9 witness: on an empty filesystem the savers fail without writing and
`create_logger` creates the two directories. -/
theorem dir_creation_discipline_witness :
    save_checkpoint "e" 3 9 0 0 "f.pth" emptyW
        = (Except.error (PyErr.parentDirMissing ("out/" ++ "e")), emptyW)
    ∧ save_model 0 "e" "f.pth" emptyW
        = (Except.error (PyErr.parentDirMissing ("out/" ++ "e")), emptyW)
    ∧ ("out/" ++ "e") ∈ (create_logger "e" "t" emptyW).2.fs.dirs
    ∧ ("out/" ++ "e" ++ "/logs") ∈ (create_logger "e" "t" emptyW).2.fs.dirs := by
  have h := dir_creation_discipline "e" "f.pth" "t" 3 9 0 0 emptyW
      (by decide) (by decide) (by decide) (by decide)
  obtain ⟨-, h2, h3⟩ := h
  obtain ⟨ha, hb⟩ := h2 (by decide) 5 7 (by decide) (by decide)
  obtain ⟨hc, hdd⟩ := h3 (by decide) (by decide) (by decide) (by decide)
  exact ⟨ha, hb, hc, hdd⟩

end Utils
